import Mathlib

/-!
Verification of the gProfiler profiling agent (intel/gprofiler).

This file gives a shallow embedding, in Lean 4, of the parts of the agent
that the checked claims are about:

* the perf supervisor `PerfProcess` (gprofiler/utils/perf_process.py):
  its RSS watchdog `restart_if_rss_exceeded`, baseline collection,
  output rotation `switch_output` and `wait_and_script`;
* the child-process utilities (gprofiler/utils/__init__.py):
  `remove_files_by_prefix`, `wait_for_file_by_prefix`, `run_process`,
  `reap_process`, `_kill_and_reap_process`;
* the continuous Python eBPF profiler (gprofiler/profilers/python_ebpf.py):
  `_ebpf_environment`, `test`, `start`, `_dump`, `_terminate`;
* external metadata staleness (gprofiler/metadata/external_metadata.py);
* the Spark metrics API client (gprofiler/spark/client.py).

Modelling conventions: wall/monotonic clock readings are passed in as `Int`
seconds; RSS readings are `Nat` bytes; file names are `List Char` (Python
compares path strings by code points, which is the lexicographic order on the
character list); the state of the working directory is a `List FileName` of
the files currently on disk; interactions with the operating system and with
child processes are recorded as explicit action traces, and external child
processes (perf script, gzip, the PyPerf helper) are oracles passed in as
parameters.  Fallible code returns `Except` or records a `raised` flag.
-/

namespace GProfilerSpec

/-! ## File names and the pieces of gprofiler/utils/__init__.py used by the
perf supervisor -/

/-- A file name, as the list of its characters. -/
abbrev FileName := List Char

/-- Lexicographic comparison of file names by character code points - the
order Python's `list.sort()` uses on the `str` results of `glob.glob`. -/
def lexLe : FileName → FileName → Bool
  | [], _ => true
  | _ :: _, [] => false
  | a :: as, b :: bs => if a = b then lexLe as bs else decide (a < b)

/-- Result of `glob.glob(pre + "*")` over the given directory contents:
the files whose name starts with `pre`, in directory order. -/
def glob_star (files : List FileName) (pre : FileName) : List FileName :=
  files.filter (fun f => pre.isPrefixOf f)

/-- Embedding of `gprofiler.utils.remove_files_by_prefix`: unlink every file
matching `pre + "*"`; the value is the directory contents afterwards. -/
def remove_files_by_prefix (files : List FileName) (pre : FileName) : List FileName :=
  files.filter (fun f => ¬ pre.isPrefixOf f)

/-- Embedding of `gprofiler.utils.wait_for_file_by_prefix`.  The `files`
argument is the directory contents the `wait_event` condition observes; a
`TimeoutError` (`.error ()`) is exactly the case in which no matching file
appears.  Otherwise, mirroring the source: glob again; if more than one file
matches, sort, unlink all but the last, and use the last one.  The result
carries the directory contents after the deletions together with the chosen
file. -/
def wait_for_file_by_prefix (files : List FileName) (pre : FileName) :
    Except Unit (List FileName × FileName) :=
  let output_files := glob_star files pre
  if output_files.isEmpty then
    .error ()
  else if output_files.length = 1 then
    .ok (files, output_files.headD [])
  else
    let sorted := output_files.insertionSort (fun a b => lexLe a b = true)
    let deleted := sorted.dropLast
    .ok (files.filter (fun f => ¬ f ∈ deleted), sorted.getLastD [])

/-! ## PerfProcess (gprofiler/utils/perf_process.py) -/

namespace PerfProcess

/-- `PerfProcess._DUMP_TIMEOUT_S`. -/
def _DUMP_TIMEOUT_S : Nat := 5

/-- `PerfProcess._RESTART_AFTER_S`. -/
def _RESTART_AFTER_S : Nat := 3600

/-- `PerfProcess._PERF_MEMORY_USAGE_THRESHOLD` (512 MiB in bytes). -/
def _PERF_MEMORY_USAGE_THRESHOLD : Nat := 512 * 1024 * 1024

/-- `PerfProcess._RSS_GROWTH_THRESHOLD` (100 MB in bytes). -/
def _RSS_GROWTH_THRESHOLD : Nat := 100 * 1024 * 1024

/-- `PerfProcess._BASELINE_COLLECTION_COUNT`. -/
def _BASELINE_COLLECTION_COUNT : Nat := 3

end PerfProcess

/-- The attributes of a `PerfProcess` instance that the RSS watchdog touches.
`_start_time` is assigned `0.0` in `__init__`; `start_time` (no underscore) is
the distinct attribute that `start()` assigns `time.monotonic()` to. -/
structure PerfProcess where
  start_time : Int
  _start_time : Int
  _baseline_rss : Option Nat
  _collected_rss_values : List Nat
  deriving Repr, DecidableEq

namespace PerfProcess

/-- The field state made by `PerfProcess.__init__`: `self._start_time = 0.0`,
no baseline, no collected readings.  (`start_time` does not exist yet as a
Python attribute; it is first created by `start()`.  We give it the value 0
here; no code reads it before `start()` runs.) -/
def init : PerfProcess :=
  { start_time := 0, _start_time := 0, _baseline_rss := none, _collected_rss_values := [] }

/-- Effect of `PerfProcess.start` (line 108 of perf_process.py) on these
fields once the output file has appeared: `self.start_time = time.monotonic()`.
Note the assignment target is `start_time`, not the `_start_time` that
`restart_if_rss_exceeded` reads. -/
def start (now : Int) (p : PerfProcess) : PerfProcess :=
  { p with start_time := now }

/-- `PerfProcess._clear_baseline_data`. -/
def _clear_baseline_data (p : PerfProcess) : PerfProcess :=
  { p with _baseline_rss := none, _collected_rss_values := [] }

/-- `PerfProcess.restart`: `stop()` (which does not touch these fields), then
`_clear_baseline_data()`, then `start()` at the current time. -/
def restart (now : Int) (p : PerfProcess) : PerfProcess :=
  (p._clear_baseline_data).start now

/-- The tail of `restart_if_rss_exceeded` ("Now check memory thresholds with
established baseline"): decide whether to restart and, if so, clear the
baseline data and restart. -/
def check_thresholds (now : Int) (current_rss : Nat) (baseline : Nat) (p : PerfProcess) :
    PerfProcess × Bool :=
  let memory_growth : Int := (current_rss : Int) - (baseline : Int)
  let time_elapsed : Int := now - p._start_time
  let should_restart_time_based :=
    time_elapsed ≥ (_RESTART_AFTER_S : Int) ∧ _PERF_MEMORY_USAGE_THRESHOLD ≤ current_rss
  let should_restart_growth_based := (_RSS_GROWTH_THRESHOLD : Int) < memory_growth
  if should_restart_time_based ∨ should_restart_growth_based then
    ((p._clear_baseline_data).restart now, true)
  else
    (p, false)

/-- Embedding of `PerfProcess.restart_if_rss_exceeded`.  `now` is the value
`time.monotonic()` returns during this call and `current_rss` the RSS reading
of the perf child.  The returned flag tells whether perf was restarted. -/
def restart_if_rss_exceeded (now : Int) (current_rss : Nat) (p : PerfProcess) :
    PerfProcess × Bool :=
  -- "Collect RSS readings for baseline calculation"
  let p :=
    if p._baseline_rss = none then
      { p with _collected_rss_values := p._collected_rss_values ++ [current_rss] }
    else p
  if p._baseline_rss = none ∧ p._collected_rss_values.length < _BASELINE_COLLECTION_COUNT then
    (p, false)  -- "Still collecting, don't check thresholds yet"
  else
    -- "Calculate average from collected samples" (sum // len)
    let p :=
      if p._baseline_rss = none then
        let avg := (p._collected_rss_values.foldl (· + ·) 0) / p._collected_rss_values.length
        { p with _baseline_rss := some avg }
      else p
    match p._baseline_rss with
    | none => (p, false)  -- unreachable: the baseline was just established
    | some baseline => check_thresholds now current_rss baseline p

/-- The visible effects of `PerfProcess.switch_output` on the operating
system, in program order. -/
inductive PerfAction where
  | unlink_matching (pre : FileName)
  | send_signal (sig : Nat)
  deriving Repr, DecidableEq

/-- `signal.SIGUSR2` on Linux. -/
def SIGUSR2 : Nat := 12

/-- Embedding of `PerfProcess.switch_output`: remove stale
`<output_path>.*` files, then send `SIGUSR2` to the perf child.  The value is
the directory contents after the deletions, together with the ordered trace of
the two effects. -/
def switch_output (files : List FileName) (output_path : FileName) :
    List FileName × List PerfAction :=
  ( remove_files_by_prefix files (output_path ++ ['.']),
   [.unlink_matching (output_path ++ ['.']), .send_signal SIGUSR2])

/-- The outcome of `PerfProcess.wait_and_script` as visible to the claims:
whether the wait failure was re-raised, whether a critical failure was logged,
whether `self._process` is still set afterwards, the directory contents, and
the text returned (when no exception escaped). -/
structure WaitAndScriptResult where
  raised : Bool
  logged_critical : Bool
  process_set : Bool
  files : List FileName
  text : Option String
  deriving Repr, DecidableEq

/-- Embedding of `PerfProcess.wait_and_script` for the `inject_jit = False`
configuration.  `script` is the oracle for the `perf script` child process
(`.error` when it fails with `CalledProcessError`); `proc_alive` tells whether
`self._process.poll()` is still `None`.  On a wait timeout the source logs
critically, clears `self._process` only when the process had died, and
re-raises; on success it scripts the rotated file and unlinks it in the
`finally:` block; a `perf script` failure is logged and turned into an empty
string.  The stream drains in the `finally:` block read but do not change any
state we track. -/
def wait_and_script (script : FileName → Except Unit String)
    (proc_alive : Bool) (files : List FileName) (output_path : FileName) :
    WaitAndScriptResult :=
  match wait_for_file_by_prefix files (output_path ++ ['.']) with
  | .error _ =>
      { raised := true, logged_critical := true, process_set := proc_alive,
        files := files, text := none }
  | .ok (files', perf_data) =>
      match script perf_data with
      | .error _ =>
          { raised := false, logged_critical := true, process_set := proc_alive,
            files := files'.filter (fun f => ¬ f = perf_data), text := some "" }
      | .ok s =>
          { raised := false, logged_critical := false, process_set := proc_alive,
            files := files'.filter (fun f => ¬ f = perf_data), text := some s }

/-- Modelled from the spec: the per-cycle snapshot of the perf supervisor
(`gprofiler/profilers/perf.py`'s use of `PerfProcess`, which is not under
src/) catches the failure `wait_and_script` raises and substitutes the empty
string for this source's text: "Rotation timeout → log, leave sampler running
(data for this cycle lost), return empty text for this source." -/
def supervisor_cycle_text (script : FileName → Except Unit String)
    (proc_alive : Bool) (files : List FileName) (output_path : FileName) : String :=
  match (wait_and_script script proc_alive files output_path).text with
  | none => ""
  | some s => s

end PerfProcess

/-! ## run_process and process reaping (gprofiler/utils/__init__.py) -/

/-- `signal.SIGKILL` on Linux. -/
def SIGKILL : Nat := 9

/-- `signal.SIGTERM`. -/
def SIGTERM : Nat := 15

/-- The default `kill_signal` argument of `run_process`:
`signal.SIGTERM if is_windows() else signal.SIGKILL`. -/
def default_kill_signal (windows : Bool) : Nat :=
  if windows then SIGTERM else SIGKILL

/-- The observable events a `run_process` call inflicts on its child, in
order.  `communicate_drained` is a completed `communicate()`-style drain: both
the normal wait and `reap_process` (used by `_kill_and_reap_process`) end in
one, so an event list containing it means the child was reaped. -/
inductive RunEvent where
  | communicate_drained
  | killed (sig : Nat)
  deriving Repr, DecidableEq

/-- Modelled from the spec: the error kinds `run_process`'s wait loop raises,
named as in gprofiler.exceptions (gprofiler/exceptions.py is not under src/):
`Stopped` is `ProcessStoppedException`, `Timeout` is
`CalledProcessTimeoutError` (which carries the timeout). -/
inductive RunProcessError where
  | ProcessStoppedException
  | CalledProcessTimeoutError (timeout : Nat)
  deriving Repr, DecidableEq

/-- An abstract child process for `run_process`: at which whole second of the
wait (if ever) it exits by itself, and the exit code reaping yields. -/
structure ChildProcess where
  exits_at : Option Nat
  exit_code : Int
  deriving Repr, DecidableEq

/-- Embedding of the `stop_event is not None` wait loop of `run_process`
(utils/__init__.py lines 245-264 plus the two `except` arms).  Each recursive
step is one `process.communicate(timeout=1)` call, so `k` counts the seconds
elapsed; the loop first sees a child exit, then a set stop event
(`ProcessStoppedException`), then an expired deadline (`TimeoutExpired`, which
`run_process` converts to `CalledProcessTimeoutError`).  On either failure the
child is sent `kill_sig` (`_kill_and_reap_process`) and then reaped with a
communicate drain (`reap_process`) before the error is returned.  `fuel`
bounds the modelled iterations; `none` means the loop was still running. -/
def run_process_loop (child : ChildProcess) (stop_at : Option Nat) (timeout : Option Nat)
    (kill_sig : Nat) :
    Nat → Nat → Option (List RunEvent × Except RunProcessError Int)
  | 0, _ => none
  | fuel + 1, k =>
    let k := k + 1
    if child.exits_at.any (fun e => e ≤ k) then
      some ([.communicate_drained], .ok child.exit_code)
    else if stop_at.any (fun s => s ≤ k) then
      some ([.killed kill_sig, .communicate_drained], .error .ProcessStoppedException)
    else if timeout.any (fun t => t < k) then
      some ([.killed kill_sig, .communicate_drained],
        .error (.CalledProcessTimeoutError (timeout.getD 0)))
    else
      run_process_loop child stop_at timeout kill_sig fuel k

/-- `run_process`'s wait on a child, from second 0. -/
def run_process_wait (child : ChildProcess) (stop_at : Option Nat) (timeout : Option Nat)
    (kill_sig : Nat) (fuel : Nat) : Option (List RunEvent × Except RunProcessError Int) :=
  run_process_loop child stop_at timeout kill_sig fuel 0

/-! ## Python eBPF profiler (gprofiler/profilers/python_ebpf.py) -/

/-- The observable state of the PyPerf helper child process. -/
structure PyPerfChild where
  running : Bool
  helper_stdout : String
  helper_stderr : String
  helper_exit : Int
  deriving Repr, DecidableEq

/-- Events of the eBPF profiler's lifecycle methods, in program order. -/
inductive EbpfEvent where
  | assert_init_pid_ns
  | set_rlimit_memlock_infinity
  | mount_debugfs
  | unlink_old_outputs
  | spawn_helper
  | poll_helper
  | wait_for_output
  | check_output
  | terminate_helper
  | kill_helper
  | reap_helper
  | staticx_cleanup
  | register_selectors
  deriving Repr, DecidableEq

namespace PythonEbpfProfiler

/-- Embedding of `PythonEbpfProfiler._terminate`: when the helper is running,
terminate it and reap it (`reap_process`), yielding
`(exit_status, stdout, stderr)` - in that order; always clean up the staticx
temporary directory. -/
def _terminate (c : PyPerfChild) : (Option Int × String × String) × List EbpfEvent :=
  if c.running then
    ((some c.helper_exit, c.helper_stdout, c.helper_stderr),
      [.terminate_helper, .reap_helper, .staticx_cleanup])
  else
    ((none, "", ""), [.staticx_cleanup])

/-- Modelled from the spec: `PythonEbpfError` derives from
`gprofiler.exceptions.CalledProcessError` (the spec's error kind
`ChildFailed(exit, stdout, stderr)`); gprofiler/exceptions.py is not under
src/.  Its positional constructor arguments are
`(returncode, cmd, stdout, stderr)`. -/
structure PythonEbpfError where
  returncode : Option Int
  cmd : List String
  stdout : String
  stderr : String
  deriving Repr, DecidableEq

/-- Embedding of the `except TimeoutError` arm of `PythonEbpfProfiler._dump`:
no `<output_path>.` file appeared within the 5 s dump timeout, so the helper
is killed, reaped and cleaned up via `_terminate`, and a `PythonEbpfError` is
raised.  The source unpacks `exit_status, stderr, stdout = self._terminate()`
- in that order - although `_terminate` returns
`(exit_status, stdout, stderr)`, and then raises
`PythonEbpfError(exit_status, process.args, stdout, stderr)`. -/
def _dump_timeout (args : List String) (c : PyPerfChild) :
    PythonEbpfError × List EbpfEvent :=
  let r := _terminate c
  let exit_status := r.1.1
  let stderr := r.1.2.1
  let stdout := r.1.2.2
  ({ returncode := exit_status, cmd := args, stdout := stdout, stderr := stderr }, r.2)

/-- Embedding of `PythonEbpfProfiler._ebpf_environment`: assert the agent runs
in the init PID namespace, raise `RLIMIT_MEMLOCK` to infinity, and mount
/sys/kernel/debug when it is not already a mount point. -/
def _ebpf_environment (debugfs_mounted : Bool) : List EbpfEvent :=
  [.assert_init_pid_ns, .set_rlimit_memlock_infinity] ++
    (if debugfs_mounted then [] else [.mount_debugfs])

/-- Embedding of `PythonEbpfProfiler.test` as its event trace: run
`_ebpf_environment`, unlink old output files, spawn the one-second trial
helper and poll it (killing it if the poll times out), check its output on
success, and always clean up the staticx directory. -/
def test (debugfs_mounted poll_ok : Bool) : List EbpfEvent :=
  _ebpf_environment debugfs_mounted ++
    [.unlink_old_outputs, .spawn_helper, .poll_helper] ++
    (if poll_ok then [.check_output, .staticx_cleanup]
     else [.kill_helper, .staticx_cleanup])

/-- Embedding of `PythonEbpfProfiler.start` as its event trace: unlink old
output files, spawn the continuous helper, wait for the transient output file
(on timeout: kill the helper, log, clean up staticx state and re-raise; on
success: keep the process and register its stream selectors).  No environment
step appears in this method. -/
def start (wait_ok : Bool) : List EbpfEvent :=
  [.unlink_old_outputs, .spawn_helper, .wait_for_output] ++
    (if wait_ok then [.register_selectors] else [.kill_helper, .staticx_cleanup])

end PythonEbpfProfiler

/-! ## External metadata (gprofiler/metadata/external_metadata.py) -/

/-- `EXTERNAL_METADATA_STALENESS_THRESHOLD_S = 5 * 60`. -/
def EXTERNAL_METADATA_STALENESS_THRESHOLD_S : Nat := 5 * 60

/-- `ExternalMetadata`: static metadata plus per-PID application metadata. -/
structure ExternalMetadata where
  static : List (String × String)
  application : List (Int × List (String × String))
  deriving Repr, DecidableEq

/-- An external metadata file as `read_external_metadata` observes it: its
`stat().st_mtime`, and the outcome of parsing its contents (`none` when
`json.loads` or the PID conversion raises, which the `except Exception` arm
turns into empty metadata). -/
structure ExternalMetadataFile where
  st_mtime : Int
  parsed : Option ExternalMetadata

/-- The file operations `read_external_metadata` performs, in order. -/
inductive ReadStep where
  | stat_called
  | read_text_called
  deriving Repr, DecidableEq

/-- `ExternalMetadataStaleError`. -/
inductive ExternalMetadataStaleError where
  | mk
  deriving Repr, DecidableEq

/-- Embedding of `read_external_metadata` at time `now` (`time.time()`):
without a path it returns empty metadata touching nothing; otherwise it stats
the file, raises `ExternalMetadataStaleError` when
`time.time() - st_mtime > 300` before any read of the contents, and otherwise
reads and parses the file (parse failures are logged and yield empty
metadata). -/
def read_external_metadata (external_metadata_path : Option ExternalMetadataFile)
    (now : Int) : Except ExternalMetadataStaleError ExternalMetadata × List ReadStep :=
  match external_metadata_path with
  | none => (.ok ⟨[], []⟩, [])
  | some file =>
    let last_update := file.st_mtime
    if now - last_update > (EXTERNAL_METADATA_STALENESS_THRESHOLD_S : Int) then
      (.error .mk, [.stat_called])
    else
      match file.parsed with
      | some md => (.ok md, [.stat_called, .read_text_called])
      | none => (.ok ⟨[], []⟩, [.stat_called, .read_text_called])

/-! ## Spark metrics API client (gprofiler/spark/client.py) -/

/-- A JSON value, for the request body `json.dump` serializes. -/
inductive JsonValue where
  | str (s : String)
  | num (n : Int)
  | arr (xs : List JsonValue)
  | obj (fields : List (String × JsonValue))

/-- The HTTP request `requests.Session.request` receives.
`gzipped_json_body = some v` records that the body bytes are the gzip
compression of the JSON serialization of `v` (the `gzip.open`/`json.dump`
pipeline of `_send_request`). -/
structure HttpRequest where
  method : String
  url : String
  headers : List (String × String)
  params : List (String × String)
  gzipped_json_body : Option JsonValue

namespace SparkAPIClient

/-- `host.rstrip("/")`. -/
def rstrip_slash (s : String) : String :=
  ⟨(s.data.reverse.dropWhile (fun c => c = '/')).reverse⟩

/-- `SparkAPIClient.get_base_url` with `BASE_PATH = "api"`:
`"{}/{}/{}".format(host.rstrip("/"), "api", version)`. -/
def get_base_url (host api_version : String) : String :=
  rstrip_slash host ++ "/" ++ "api" ++ "/" ++ api_version

/-- `SparkAPIClient._get_query_params`; `ts_iso` is the string
`get_iso8601_format_time(datetime.datetime.utcnow())` evaluates to. -/
def _get_query_params (key service hostname ts_iso : String) : List (String × String) :=
  [("key", key), ("service", service), ("hostname", hostname), ("timestamp", ts_iso)]

/-- The session headers `SparkAPIClient._init_session` installs. -/
def _init_session_headers (key service : String) : List (String × String) :=
  [("Authorization", "Bearer " ++ key), ("X-Gprofiler-Service", service)]

/-- Embedding of `SparkAPIClient._send_request` for a non-GET method: the
request it hands to the session.  The body is the gzip compression of the
JSON serialization of `data`; the headers the source adds for the body are
`Transfer-Encoding: gzip` and `Content-type: application/json`; the query
parameters are the client's followed by the caller's `params`. -/
def _send_request (host key service hostname ts_iso : String) (method : String)
    (path : String) (data : JsonValue) (api_version : String)
    (extra_params : List (String × String)) : HttpRequest :=
  { method := method
    url := get_base_url host api_version ++ "/" ++ path
    headers := _init_session_headers key service ++
      [("Transfer-Encoding", "gzip"), ("Content-type", "application/json")]
    params := _get_query_params key service hostname ts_iso ++ extra_params
    gzipped_json_body := some data }

/-- Embedding of `SparkAPIClient.submit_spark_metrics`: POST to
`spark_metrics` under api version `"v0"` (unless overridden) with body
`{"format_version": "0", "timestamp": timestamp, "metrics": metrics}` and the
extra query parameter `version=__version__`. -/
def submit_spark_metrics (host key service hostname ts_iso version_str : String)
    (timestamp : Int) (metrics : List JsonValue) (spark_api_version : Option String) :
    HttpRequest :=
  _send_request host key service hostname ts_iso "POST" "spark_metrics"
    (.obj [("format_version", .str "0"), ("timestamp", .num timestamp),
      ("metrics", .arr metrics)])
    (spark_api_version.getD "v0") [("version", version_str)]

end SparkAPIClient

/-! ## Module-level names for the perf supervisor import (C10) -/

/-- The names `gprofiler/utils/perf_process.py` imports from `gprofiler.utils`
(perf_process.py lines 13-23). -/
def perf_process_utils_imports : List String :=
  ["cleanup_process_reference", "reap_process", "remove_files_by_prefix",
   "remove_path", "resource_path", "run_process", "start_process",
   "wait_event", "wait_for_file_by_prefix"]

/-- Every top-level name bound in `gprofiler/utils/__init__.py` (module
constants, function and class definitions).  The names the module merely
re-exports from its own imports (`os`, `Popen`, the exception types, and so
on) include no `cleanup_process_reference` either. -/
def gprofiler_utils_defined_names : List String :=
  ["GPROFILER_DIRECTORY_NAME", "TEMPORARY_STORAGE_PATH", "gprofiler_mutex",
   "SIGINT_RATELIMIT", "_last_signal_ts", "_processes", "resource_path",
   "start_process", "wait_event", "poll_process", "remove_files_by_prefix",
   "wait_for_file_by_prefix", "reap_process", "_kill_and_reap_process",
   "run_process", "pgrep_exe", "pgrep_maps",
   "get_iso8601_format_time_from_epoch_time", "get_iso8601_format_time",
   "remove_prefix", "touch_path", "remove_path", "removed_path",
   "_INSTALLED_PROGRAMS_CACHE", "assert_program_installed",
   "grab_gprofiler_mutex", "atomically_symlink", "TemporaryDirectoryWithMode",
   "reset_umask", "limit_frequency", "random_prefix", "PERF_EVENT_MLOCK_KB",
   "read_perf_event_mlock_kb", "write_perf_event_mlock_kb", "is_pyinstaller",
   "get_staticx_dir", "add_permission_dir", "merge_dicts",
   "is_profiler_disabled", "_exit_handler", "_sigint_handler", "setup_signals"]

/-! ## Theorems -/

/-- Helper: the threshold check either restarts (returning the cleared,
re-started state) or leaves the state exactly as it received it. -/
theorem check_thresholds_cases (now : Int) (rss baseline : Nat) (p : PerfProcess) :
    PerfProcess.check_thresholds now rss baseline p = ((p._clear_baseline_data).restart now, true) ∨
    PerfProcess.check_thresholds now rss baseline p = (p, false) := by
  simp only [PerfProcess.check_thresholds]
  split
  · exact Or.inl rfl
  · exact Or.inr rfl

/-- Helper: while the baseline is unset and fewer than 3 readings have been
collected, a health check only appends the reading and returns. -/
theorem restart_if_rss_exceeded_collecting (now : Int) (rss : Nat) (p : PerfProcess)
    (h1 : p._baseline_rss = none)
    (h2 : p._collected_rss_values.length + 1 < PerfProcess._BASELINE_COLLECTION_COUNT) :
    p.restart_if_rss_exceeded now rss =
      ({ p with _collected_rss_values := p._collected_rss_values ++ [rss] }, false) := by
  simp only [PerfProcess._BASELINE_COLLECTION_COUNT] at h2
  simp [PerfProcess.restart_if_rss_exceeded, h1, PerfProcess._BASELINE_COLLECTION_COUNT, h2]

/-- Helper: on the reading that completes the collection, the baseline is
established as the floor-average of the collected readings and the threshold
check runs against it. -/
theorem restart_if_rss_exceeded_establish (now : Int) (rss : Nat) (p : PerfProcess)
    (h1 : p._baseline_rss = none)
    (h2 : ¬ p._collected_rss_values.length + 1 < PerfProcess._BASELINE_COLLECTION_COUNT) :
    p.restart_if_rss_exceeded now rss =
      PerfProcess.check_thresholds now rss
        (((p._collected_rss_values ++ [rss]).foldl (· + ·) 0) /
          (p._collected_rss_values.length + 1))
        { p with
            _baseline_rss :=
              some (((p._collected_rss_values ++ [rss]).foldl (· + ·) 0) /
                (p._collected_rss_values.length + 1)),
            _collected_rss_values := p._collected_rss_values ++ [rss] } := by
  simp only [PerfProcess._BASELINE_COLLECTION_COUNT] at h2
  simp [PerfProcess.restart_if_rss_exceeded, h1, PerfProcess._BASELINE_COLLECTION_COUNT, h2]

/-- Helper: once the baseline is set, a health check is exactly the threshold
check against it (nothing is collected or recomputed). -/
theorem restart_if_rss_exceeded_of_some (now : Int) (rss b : Nat) (p : PerfProcess)
    (h : p._baseline_rss = some b) :
    p.restart_if_rss_exceeded now rss = PerfProcess.check_thresholds now rss b p := by
  simp [PerfProcess.restart_if_rss_exceeded, h]

/-- C1: the claim says `restart_if_rss_exceeded` triggers its time-based
restart only when the sampler has been alive at least one hour and its RSS is
at least 512 MiB, and that a sampler started less than one hour ago with RSS
within 100 MiB of its baseline is not restarted.  The code violates this:
`start()` assigns `time.monotonic()` to the attribute `start_time`, while the
health check reads `self._start_time`, which keeps its `__init__` value 0.0.
Here a sampler started at monotonic time 5000 s, with a steady RSS of 600 MiB
(zero growth over its established baseline), is restarted on the third health
check at time 5100 s - only 100 s after start. -/
theorem C1_restarts_sampler_younger_than_one_hour :
    (let p0 := PerfProcess.init.start 5000
     let r1 := p0.restart_if_rss_exceeded 5050 (600 * 1024 * 1024)
     let r2 := r1.1.restart_if_rss_exceeded 5075 (600 * 1024 * 1024)
     let r3 := r2.1.restart_if_rss_exceeded 5100 (600 * 1024 * 1024)
     -- the sampler has been alive 100 s < 3600 s, and its RSS reading never
     -- moved off the 600 MiB baseline (zero growth), yet the third check
     -- restarts it, because the elapsed time the code computes is
     -- 5100 - p._start_time = 5100 ≥ 3600.
     r1.2 = false ∧ r2.2 = false ∧ r3.2 = true ∧
     (5100 : Int) - p0.start_time < 3600 ∧
     r3.1._baseline_rss = none ∧
     5100 - r2.1._start_time ≥ (3600 : Int)) := by
  decide

/-- C4 counterexample: the claim states the RSS baseline is the arithmetic
mean of the first 3 post-start RSS readings.  With readings 1, 1, 2 bytes the
code sets `_baseline_rss = (1 + 1 + 2) // 3 = 1`, and 1 is not the arithmetic
mean of 1, 1, 2 (three times it is 3, not 4): the baseline is the floor of the
mean, not the mean. -/
theorem C4_baseline_is_not_arithmetic_mean :
    (let p0 := PerfProcess.init.start 0
     let r1 := p0.restart_if_rss_exceeded 10 1
     let r2 := r1.1.restart_if_rss_exceeded 20 1
     let r3 := r2.1.restart_if_rss_exceeded 30 2
     r3.1._baseline_rss = some 1 ∧ r3.2 = false ∧ ¬ 3 * 1 = 1 + 1 + 2) := by
  decide

/-- C4 (amended): the RSS baseline is set exactly once per process instance as
the floor of the arithmetic mean (integer division of the sum by 3) of the
first 3 post-start RSS readings; on health checks made before the 3rd reading
has been collected, neither the growth-based nor the time-based restart
condition is evaluated (the call never restarts and only appends the reading);
once set, a non-restarting health check leaves the baseline and readings
untouched; and every restart clears the baseline and the collected readings so
the next instance collects 3 fresh readings. -/
theorem C4_baseline_floor_mean_set_once_and_cleared :
    (∀ (p : PerfProcess) (now : Int) (rss : Nat),
      p._baseline_rss = none →
      p._collected_rss_values.length + 1 < PerfProcess._BASELINE_COLLECTION_COUNT →
      p.restart_if_rss_exceeded now rss =
        ({ p with _collected_rss_values := p._collected_rss_values ++ [rss] }, false)) ∧
    (∀ (p : PerfProcess) (now : Int) (r1 r2 r3 : Nat),
      p._baseline_rss = none →
      p._collected_rss_values = [r1, r2] →
      ((p.restart_if_rss_exceeded now r3).2 = false →
        (p.restart_if_rss_exceeded now r3).1._baseline_rss = some ((r1 + r2 + r3) / 3))) ∧
    (∀ (p : PerfProcess) (now : Int) (rss : Nat) (b : Nat),
      p._baseline_rss = some b →
      (p.restart_if_rss_exceeded now rss).2 = false →
      (p.restart_if_rss_exceeded now rss).1 = p) ∧
    (∀ (p : PerfProcess) (now : Int) (rss : Nat),
      (p.restart_if_rss_exceeded now rss).2 = true →
      (p.restart_if_rss_exceeded now rss).1._baseline_rss = none ∧
        (p.restart_if_rss_exceeded now rss).1._collected_rss_values = []) := by
  refine ⟨?_, ?_, ?_, ?_⟩
  · intro p now rss h1 h2
    exact restart_if_rss_exceeded_collecting now rss p h1 h2
  · intro p now r1 r2 r3 h1 h2
    have hlen : ¬ p._collected_rss_values.length + 1 < PerfProcess._BASELINE_COLLECTION_COUNT := by
      simp [h2, PerfProcess._BASELINE_COLLECTION_COUNT]
    rw [restart_if_rss_exceeded_establish now r3 p h1 hlen]
    rcases check_thresholds_cases now r3
        (((p._collected_rss_values ++ [r3]).foldl (· + ·) 0) /
          (p._collected_rss_values.length + 1))
        { p with
            _baseline_rss :=
              some (((p._collected_rss_values ++ [r3]).foldl (· + ·) 0) /
                (p._collected_rss_values.length + 1)),
            _collected_rss_values := p._collected_rss_values ++ [r3] } with hcase | hcase <;>
      rw [hcase]
    · intro hfalse
      simp at hfalse
    · intro _
      simp [h2]
  · intro p now rss b h1
    rw [restart_if_rss_exceeded_of_some now rss b p h1]
    rcases check_thresholds_cases now rss b p with hcase | hcase <;> rw [hcase]
    · intro hfalse
      simp at hfalse
    · intro _
      rfl
  · intro p now rss
    rcases hb : p._baseline_rss with _ | b
    · by_cases hlen : p._collected_rss_values.length + 1 < PerfProcess._BASELINE_COLLECTION_COUNT
      · rw [restart_if_rss_exceeded_collecting now rss p hb hlen]
        intro hfalse
        simp at hfalse
      · rw [restart_if_rss_exceeded_establish now rss p hb hlen]
        rcases check_thresholds_cases now rss
            (((p._collected_rss_values ++ [rss]).foldl (· + ·) 0) /
              (p._collected_rss_values.length + 1))
            { p with
                _baseline_rss :=
                  some (((p._collected_rss_values ++ [rss]).foldl (· + ·) 0) /
                    (p._collected_rss_values.length + 1)),
                _collected_rss_values := p._collected_rss_values ++ [rss] } with hcase | hcase <;>
          rw [hcase]
        · intro _
          simp [PerfProcess.restart, PerfProcess._clear_baseline_data, PerfProcess.start]
        · intro hfalse
          simp at hfalse
    · rw [restart_if_rss_exceeded_of_some now rss b p hb]
      rcases check_thresholds_cases now rss b p with hcase | hcase <;> rw [hcase]
      · intro _
        simp [PerfProcess.restart, PerfProcess._clear_baseline_data, PerfProcess.start]
      · intro hfalse
        simp at hfalse

/-- Witness for C4's amended theorem, instantiating each universally
quantified part at concrete inputs and discharging its hypotheses there. -/
theorem C4_baseline_witness :
    (PerfProcess.init.restart_if_rss_exceeded 7 5 =
      ({ PerfProcess.init with _collected_rss_values := [5] }, false)) ∧
    (({ PerfProcess.init with _collected_rss_values := [4, 5] }).restart_if_rss_exceeded
        7 6).1._baseline_rss = some ((4 + 5 + 6) / 3) := by
  have h := C4_baseline_floor_mean_set_once_and_cleared
  exact ⟨h.1 PerfProcess.init 7 5 (by decide) (by decide),
    h.2.1 { PerfProcess.init with _collected_rss_values := [4, 5] } 7 4 5 6 (by decide) (by decide)
      (by decide)⟩

/-- Helper: `lexLe` is reflexive. -/
theorem lexLe_refl : ∀ a : FileName, lexLe a a = true
  | [] => rfl
  | _ :: cs => by simp [lexLe, lexLe_refl cs]

/-- Helper: `lexLe` is total. -/
theorem lexLe_total : ∀ a b : FileName, lexLe a b = true ∨ lexLe b a = true
  | [], _ => Or.inl rfl
  | _ :: _, [] => Or.inr rfl
  | a :: as, b :: bs => by
    by_cases hab : a = b
    · subst hab
      simpa [lexLe] using lexLe_total as bs
    · rcases lt_or_gt_of_ne hab with h | h
      · exact Or.inl (by simp [lexLe, hab, h])
      · exact Or.inr (by simp [lexLe, Ne.symm hab, h])

/-- Helper: `lexLe` is transitive. -/
theorem lexLe_trans : ∀ a b c : FileName,
    lexLe a b = true → lexLe b c = true → lexLe a c = true
  | [], _, _, _, _ => rfl
  | _ :: _, [], _, hab, _ => by simp [lexLe] at hab
  | _ :: _, _ :: _, [], _, hbc => by simp [lexLe] at hbc
  | a :: as, b :: bs, c :: cs, hab, hbc => by
    by_cases hab1 : a = b
    · subst hab1
      simp only [lexLe, if_pos rfl] at hab
      by_cases hbc1 : a = c
      · subst hbc1
        simp only [lexLe, if_pos rfl] at hbc
        simpa [lexLe] using lexLe_trans as bs cs hab hbc
      · simp only [lexLe, if_neg hbc1, decide_eq_true_eq] at hbc
        simp [lexLe, hbc1, hbc]
    · simp only [lexLe, if_neg hab1, decide_eq_true_eq] at hab
      by_cases hbc1 : b = c
      · subst hbc1
        simp [lexLe, hab1, hab]
      · simp only [lexLe, if_neg hbc1, decide_eq_true_eq] at hbc
        have hac : a < c := lt_trans hab hbc
        simp [lexLe, ne_of_lt hac, hac]

/-- Helper: a non-empty list is its `dropLast` followed by its `getLastD`. -/
theorem dropLast_append_getLastD {α : Type} : ∀ (l : List α) (d : α), l ≠ [] →
    l.dropLast ++ [l.getLastD d] = l
  | [], _, h => absurd rfl h
  | [_], _, _ => rfl
  | a :: b :: t, d, _ => by
    have ih := dropLast_append_getLastD (b :: t) d (by simp)
    have hstep : (a :: b :: t).getLastD d = (b :: t).getLastD d := by
      show (a :: b :: t).getLast (by simp) = (b :: t).getLast (by simp)
      exact List.getLast_cons (by simp)
    rw [show (a :: b :: t).dropLast = a :: (b :: t).dropLast from rfl, hstep]
    simpa using congrArg (fun xs => a :: xs) ih

/-- Helper: the `getLastD` of a non-empty list is one of its elements. -/
theorem getLastD_mem {α : Type} (l : List α) (d : α) (h : l ≠ []) : l.getLastD d ∈ l := by
  have hdec := dropLast_append_getLastD l d h
  have hmem : l.getLastD d ∈ l.dropLast ++ [l.getLastD d] :=
    List.mem_append_right _ (List.mem_singleton_self _)
  rwa [hdec] at hmem

/-- Helper: in a `lexLe`-sorted list, every element is `lexLe` the last one. -/
theorem sorted_lexLe_getLastD :
    ∀ l : List FileName, l.Sorted (fun a b => lexLe a b = true) →
      ∀ x ∈ l, lexLe x (l.getLastD []) = true
  | [], _, x, hx => absurd hx (by simp)
  | [a], _, x, hx => by
    simp at hx
    subst hx
    exact lexLe_refl x
  | a :: b :: t, hs, x, hx => by
    have hstep : (a :: b :: t).getLastD [] = (b :: t).getLastD [] := by
      show (a :: b :: t).getLast (by simp) = (b :: t).getLast (by simp)
      exact List.getLast_cons (by simp)
    rw [hstep]
    rcases List.mem_cons.mp hx with rfl | hmem
    · have hrel := List.rel_of_sorted_cons hs
      exact hrel _ (getLastD_mem (b :: t) [] (by simp))
    · exact sorted_lexLe_getLastD (b :: t) (List.Sorted.of_cons hs) x hmem

/-- Helper: a duplicate-free list whose elements all equal `c` has at most one
element. -/
theorem length_le_one_of_forall_eq {α : Type} :
    ∀ l : List α, l.Nodup → ∀ c : α, (∀ x ∈ l, x = c) → l.length ≤ 1
  | [], _, _, _ => by simp
  | [_], _, _, _ => by simp
  | a :: b :: t, hnd, c, h => by
    exfalso
    have ha := h a (by simp)
    have hb := h b (by simp)
    have : a ≠ b := by
      intro hEq
      simp [List.nodup_cons, hEq] at hnd
    exact this (ha.trans hb.symm)

/-- C3: a rotation (`switch_output`) first deletes every pre-existing file
matching `<output_path>.*` and only then sends SIGUSR2; after a successful
wait (`wait_for_file_by_prefix`), at most one file with that prefix remains on
disk, the consumed file being the alphabetically last of those found (all
others having been deleted first); and zero matching files remain if the wait
timed out. -/
theorem C3_rotation_deletes_then_signals_and_keeps_last :
    (∀ (files : List FileName) (out : FileName),
      (PerfProcess.switch_output files out).2 =
        [.unlink_matching (out ++ ['.']), .send_signal PerfProcess.SIGUSR2] ∧
      glob_star (PerfProcess.switch_output files out).1 (out ++ ['.']) = []) ∧
    (∀ (files : List FileName) (pre : FileName) (disk : List FileName) (chosen : FileName),
      files.Nodup →
      wait_for_file_by_prefix files pre = .ok (disk, chosen) →
      (glob_star disk pre).length ≤ 1 ∧ chosen ∈ glob_star files pre ∧
        ∀ f ∈ glob_star files pre, lexLe f chosen = true) ∧
    (∀ (files : List FileName) (pre : FileName),
      wait_for_file_by_prefix files pre = .error () → glob_star files pre = []) := by
  refine ⟨?_, ?_, ?_⟩
  · intro files out
    refine ⟨rfl, ?_⟩
    simp only [PerfProcess.switch_output, remove_files_by_prefix, glob_star, List.filter_filter]
    simp
  · intro files pre disk chosen hnd hok
    simp only [ wait_for_file_by_prefix] at hok
    split at hok
    · simp at hok
    · next hne =>
      split at hok
      · next hlen1 =>
        simp only [Except.ok.injEq, Prod.mk.injEq] at hok
        obtain ⟨rfl, rfl⟩ := hok
        obtain ⟨x, hx⟩ := List.length_eq_one.mp hlen1
        refine ⟨by simp [hx], ?_, ?_⟩
        · rw [hx]
          simp
        · intro f hf
          rw [hx] at hf
          simp at hf
          subst hf
          rw [hx]
          exact lexLe_refl f
      · next hlen1 =>
        simp only [Except.ok.injEq, Prod.mk.injEq] at hok
        obtain ⟨rfl, rfl⟩ := hok
        have hne' : glob_star files pre ≠ [] := by
          intro h0
          simp [h0] at hne
        have hperm :
            ((glob_star files pre).insertionSort (fun a b => lexLe a b = true)).Perm
              (glob_star files pre) :=
          List.perm_insertionSort _ _
        have hsne : (glob_star files pre).insertionSort (fun a b => lexLe a b = true) ≠ [] := by
          intro h0
          rw [h0] at hperm
          exact hne' hperm.nil_eq.symm
        have hsorted :
            ((glob_star files pre).insertionSort (fun a b => lexLe a b = true)).Sorted
              (fun a b => lexLe a b = true) := by
          haveI : IsTotal FileName (fun a b : FileName => lexLe a b = true) :=
            ⟨fun a b => lexLe_total a b⟩
          haveI : IsTrans FileName (fun a b : FileName => lexLe a b = true) :=
            ⟨fun a b c => lexLe_trans a b c⟩
          exact List.sorted_insertionSort _ _
        have hdecomp :=
          dropLast_append_getLastD
            ((glob_star files pre).insertionSort (fun a b => lexLe a b = true)) [] hsne
        refine ⟨?_, ?_, ?_⟩
        ·
          apply length_le_one_of_forall_eq _ ?_
              (((glob_star files pre).insertionSort (fun a b => lexLe a b = true)).getLastD [])
          · intro x hxmem
            simp only [glob_star, List.mem_filter, decide_eq_true_eq] at hxmem
            obtain ⟨⟨hxfiles', hxnotdel⟩, hxmatch⟩ := hxmem
            have hxout : x ∈ glob_star files pre := by
              simp only [glob_star, List.mem_filter, decide_eq_true_eq]
              exact ⟨hxfiles', hxmatch⟩
            have hxsorted :
                x ∈ (glob_star files pre).insertionSort (fun a b => lexLe a b = true) :=
              hperm.mem_iff.mpr hxout
            rw [← hdecomp] at hxsorted
            rcases List.mem_append.mp hxsorted with hin | hin
            · exact absurd hin hxnotdel
            · simpa using hin
          · exact (hnd.filter _).filter _
        · have hlastmem :
              (((glob_star files pre).insertionSort (fun a b => lexLe a b = true)).getLastD [])
                ∈ (glob_star files pre).insertionSort (fun a b => lexLe a b = true) :=
            getLastD_mem _ [] hsne
          exact hperm.mem_iff.mp hlastmem
        · intro f hf
          exact sorted_lexLe_getLastD _ hsorted f (hperm.mem_iff.mpr hf)
  · intro files pre h
    simp only [ wait_for_file_by_prefix] at h
    split at h
    · next he => simpa [List.isEmpty_iff] using he
    · split at h <;> simp at h

/-- Witness for C3's theorem: in a directory holding files "x.2", "y" and
"x.1", waiting on the rotated files "x.*" keeps exactly the alphabetically
last match "x.2", and in a directory with no match the wait times out with
zero matching files. -/
theorem C3_rotation_witness :
    (glob_star (["x.2".toList, "y".toList].filter
        (fun f => ¬ f ∈ (["x.2".toList, "x.1".toList].insertionSort
          (fun a b => lexLe a b = true)).dropLast)) "x.".toList).length ≤ 1 ∧
    glob_star ([] : List FileName) "x.".toList = [] := by
  have h2 := C3_rotation_deletes_then_signals_and_keeps_last.2.1
    ["x.2".toList, "y".toList, "x.1".toList] "x.".toList
  have h3 := C3_rotation_deletes_then_signals_and_keeps_last.2.2 [] "x.".toList
  refine ⟨?_, h3 rfl⟩
  have := (h2 (["x.2".toList, "y".toList].filter
      (fun f => ¬ f ∈ (["x.2".toList, "x.1".toList].insertionSort
        (fun a b => lexLe a b = true)).dropLast)) "x.2".toList (by decide) (by rfl)).1
  exact this

/-- C2: when no rotated `<output_path>.*` file appears within the dump
timeout, `wait_and_script` logs the failure critically and re-raises, the
still-alive sampler process is left running (its reference is kept), no file
is touched, and the per-cycle supervisor text for this source is the empty
string. -/
theorem C2_rotation_timeout_logs_and_yields_empty_text :
    ∀ (script : FileName → Except Unit String) (files : List FileName) (out : FileName),
      glob_star files (out ++ ['.']) = [] →
      (PerfProcess.wait_and_script script true files out).raised = true ∧
      (PerfProcess.wait_and_script script true files out).logged_critical = true ∧
      (PerfProcess.wait_and_script script true files out).process_set = true ∧
      (PerfProcess.wait_and_script script true files out).files = files ∧
      PerfProcess.supervisor_cycle_text script true files out = "" := by
  intro script files out h
  have herr : wait_for_file_by_prefix files (out ++ ['.']) = .error () := by
    simp [ wait_for_file_by_prefix, h]
  simp [PerfProcess.wait_and_script, PerfProcess.supervisor_cycle_text, herr]

/-- Witness for C2's theorem: a directory holding only "a" has no "o.*" file,
so the supervisor records the raised, logged failure, keeps the process, and
uses the empty string for the cycle. -/
theorem C2_rotation_timeout_witness :
    (PerfProcess.wait_and_script (fun _ => .ok "text") true ["a".toList] "o".toList).raised
        = true ∧
    PerfProcess.supervisor_cycle_text (fun _ => .ok "text") true ["a".toList] "o".toList = "" := by
  have h := C2_rotation_timeout_logs_and_yields_empty_text (fun _ => .ok "text")
    ["a".toList] "o".toList (by rfl)
  exact ⟨h.1, h.2.2.2.2⟩

/-- Helper: any completed `run_process` wait reaped the child, and any failed
one killed it first and then reaped it. -/
theorem run_process_loop_reaps (child : ChildProcess) (stop_at timeout : Option Nat)
    (kill_sig : Nat) :
    ∀ (fuel k : Nat) (events : List RunEvent) (res : Except RunProcessError Int),
      run_process_loop child stop_at timeout kill_sig fuel k = some (events, res) →
      RunEvent.communicate_drained ∈ events ∧
        (∀ e, res = .error e → events = [.killed kill_sig, .communicate_drained])
  | 0, _, _, _, h => by simp [run_process_loop] at h
  | fuel + 1, k, events, res, h => by
    rw [run_process_loop] at h
    split at h
    · simp only [Option.some.injEq, Prod.mk.injEq] at h
      obtain ⟨h1, h2⟩ := h
      subst h1
      subst h2
      exact ⟨by simp, by simp⟩
    · split at h
      · simp only [Option.some.injEq, Prod.mk.injEq] at h
        obtain ⟨h1, h2⟩ := h
        subst h1
        subst h2
        exact ⟨by simp, by simp⟩
      · split at h
        · simp only [Option.some.injEq, Prod.mk.injEq] at h
          obtain ⟨h1, h2⟩ := h
          subst h1
          subst h2
          exact ⟨by simp, by simp⟩
        · exact run_process_loop_reaps child stop_at timeout kill_sig fuel (k + 1) events res h

/-- Helper: with a hung child, no deadline, and the stop event set at second
`s`, the wait loop returns the Stopped error after a kill and a reap. -/
theorem run_process_loop_stops (child : ChildProcess) (kill_sig s : Nat)
    (hexit : child.exits_at = none) :
    ∀ (fuel k : Nat), 1 ≤ fuel → s ≤ k + fuel →
      run_process_loop child (some s) none kill_sig fuel k =
        some ([.killed kill_sig, .communicate_drained], .error .ProcessStoppedException)
  | 0, _, h1, _ => absurd h1 (by simp)
  | fuel + 1, k, _, hs => by
    rw [run_process_loop]
    by_cases htrig : s ≤ k + 1
    · simp [hexit, htrig]
    · have h1 : 1 ≤ fuel := by omega
      have hs' : s ≤ (k + 1) + fuel := by omega
      simpa [hexit, htrig] using
        run_process_loop_stops child kill_sig s hexit fuel (k + 1) h1 hs'

/-- Helper: with a hung child, no stop, and deadline `t`, the wait loop
returns the Timeout error after a kill and a reap. -/
theorem run_process_loop_times_out (child : ChildProcess) (kill_sig t : Nat)
    (hexit : child.exits_at = none) :
    ∀ (fuel k : Nat), 1 ≤ fuel → t + 1 ≤ k + fuel →
      run_process_loop child none (some t) kill_sig fuel k =
        some ([.killed kill_sig, .communicate_drained],
          .error (.CalledProcessTimeoutError t))
  | 0, _, h1, _ => absurd h1 (by simp)
  | fuel + 1, k, _, hs => by
    rw [run_process_loop]
    by_cases htrig : t < k + 1
    · simp [hexit, htrig]
    · have h1 : 1 ≤ fuel := by omega
      have hs' : t + 1 ≤ (k + 1) + fuel := by omega
      simpa [hexit, htrig] using
        run_process_loop_times_out child kill_sig t hexit fuel (k + 1) h1 hs'

/-- Helper: a child that exits at second `e` is seen by the polling loop and
drained normally. -/
theorem run_process_loop_sees_exit (child : ChildProcess) (kill_sig e : Nat)
    (hexit : child.exits_at = some e) :
    ∀ (fuel k : Nat), 1 ≤ fuel → e ≤ k + fuel →
      run_process_loop child none none kill_sig fuel k =
        some ([.communicate_drained], .ok child.exit_code)
  | 0, _, h1, _ => absurd h1 (by simp)
  | fuel + 1, k, _, hs => by
    rw [run_process_loop]
    by_cases htrig : e ≤ k + 1
    · simp [hexit, htrig]
    · have h1 : 1 ≤ fuel := by omega
      have hs' : e ≤ (k + 1) + fuel := by omega
      simpa [hexit, htrig] using
        run_process_loop_sees_exit child kill_sig e hexit fuel (k + 1) h1 hs'

/-- C5: for every child run with a stop event via `run_process`: the wait is a
loop of 1-second `communicate` attempts that polls child exit and the stop
signal every second; if the stop event becomes set the Stopped error
(`ProcessStoppedException`) is raised, and if the timeout elapses the Timeout
error (`CalledProcessTimeoutError`) is raised; on either failure the child is
first sent SIGKILL (SIGTERM on Windows) and then reaped with a
communicate-style drain before the error propagates, so a child of a
completed wait is never left unreaped. -/
theorem C5_run_process_stop_and_timeout_kill_then_reap :
    (∀ (windows : Bool) (child : ChildProcess) (s fuel : Nat),
      child.exits_at = none → 1 ≤ fuel → s ≤ fuel →
      run_process_wait child (some s) none (default_kill_signal windows) fuel =
        some ([.killed (default_kill_signal windows), .communicate_drained],
          .error .ProcessStoppedException)) ∧
    (∀ (windows : Bool) (child : ChildProcess) (t fuel : Nat),
      child.exits_at = none → 1 ≤ fuel → t + 1 ≤ fuel →
      run_process_wait child none (some t) (default_kill_signal windows) fuel =
        some ([.killed (default_kill_signal windows), .communicate_drained],
          .error (.CalledProcessTimeoutError t))) ∧
    (∀ (child : ChildProcess) (e fuel kill_sig : Nat),
      child.exits_at = some e → 1 ≤ fuel → e ≤ fuel →
      run_process_wait child none none kill_sig fuel =
        some ([.communicate_drained], .ok child.exit_code)) ∧
    (∀ (child : ChildProcess) (stop_at timeout : Option Nat) (kill_sig fuel : Nat)
        (events : List RunEvent) (res : Except RunProcessError Int),
      run_process_wait child stop_at timeout kill_sig fuel = some (events, res) →
      RunEvent.communicate_drained ∈ events ∧
        ∀ e, res = .error e → events = [.killed kill_sig, .communicate_drained]) := by
  refine ⟨?_, ?_, ?_, ?_⟩
  · intro windows child s fuel hexit h1 hs
    exact run_process_loop_stops child (default_kill_signal windows) s hexit fuel 0 h1
      (by omega)
  · intro windows child t fuel hexit h1 ht
    exact run_process_loop_times_out child (default_kill_signal windows) t hexit fuel 0 h1
      (by omega)
  · intro child e fuel kill_sig hexit h1 he
    exact run_process_loop_sees_exit child kill_sig e hexit fuel 0 h1 (by omega)
  · intro child stop_at timeout kill_sig fuel events res h
    exact run_process_loop_reaps child stop_at timeout kill_sig fuel 0 events res h

/-- Witness for C5's theorem: a hung child stopped at second 2 (fuel 3), a
hung child timed out after 1 s (fuel 2, Windows default signal), and a child
exiting at second 1 drained normally. -/
theorem C5_run_process_witness :
    run_process_wait ⟨none, 0⟩ (some 2) none (default_kill_signal false) 3 =
      some ([.killed (default_kill_signal false), .communicate_drained],
        .error .ProcessStoppedException) ∧
    run_process_wait ⟨none, 0⟩ none (some 1) (default_kill_signal true) 2 =
      some ([.killed (default_kill_signal true), .communicate_drained],
        .error (.CalledProcessTimeoutError 1)) ∧
    run_process_wait ⟨some 1, 7⟩ none none 9 2 =
      some ([.communicate_drained], .ok 7) := by
  have h := C5_run_process_stop_and_timeout_kill_then_reap
  exact ⟨h.1 false ⟨none, 0⟩ 2 3 rfl (by decide) (by decide),
    h.2.1 true ⟨none, 0⟩ 1 2 rfl (by decide) (by decide),
    h.2.2.1 ⟨some 1, 7⟩ 1 2 9 rfl (by decide) (by decide)⟩

/-- C6: on a dump timeout the helper is terminated, reaped, its staticx state
cleaned up, and a `PythonEbpfError` carrying the helper's exit status is
raised - but, because `_dump` unpacks `_terminate`'s
`(exit_status, stdout, stderr)` as `exit_status, stderr, stdout`, the raised
error's `stdout` field carries the helper's stderr and its `stderr` field the
helper's stdout, contrary to the claim's field mapping.  Evaluated on a
running helper with stdout "OUT", stderr "ERR" and exit status -9. -/
theorem C6_dump_timeout_error_swaps_stdout_and_stderr :
    (PythonEbpfProfiler._dump_timeout ["PyPerf"] ⟨true, "OUT", "ERR", -9⟩).1 =
      { returncode := some (-9), cmd := ["PyPerf"], stdout := "ERR", stderr := "OUT" } ∧
    (PythonEbpfProfiler._dump_timeout ["PyPerf"] ⟨true, "OUT", "ERR", -9⟩).2 =
      [.terminate_helper, .reap_helper, .staticx_cleanup] :=
  ⟨rfl, rfl⟩

/-- C7 counterexample: the trace of `PythonEbpfProfiler.start()` (here with a
successful wait; the timeout arm differs only after the spawn) contains none
of the three environment-prerequisite steps the claim attributes to it,
although it does launch the helper. -/
theorem C7_start_performs_no_environment_steps :
    EbpfEvent.assert_init_pid_ns ∉ PythonEbpfProfiler.start true ∧
    EbpfEvent.set_rlimit_memlock_infinity ∉ PythonEbpfProfiler.start true ∧
    EbpfEvent.mount_debugfs ∉ PythonEbpfProfiler.start true ∧
    EbpfEvent.spawn_helper ∈ PythonEbpfProfiler.start true := by
  decide

/-- C7 (amended): the environment prerequisites - the initial-PID-namespace
assertion, raising RLIMIT_MEMLOCK to infinity, and mounting /sys/kernel/debug
when it is not already a mount point - are enforced by `_ebpf_environment`,
which `test()` runs before spawning its trial helper; `start()` itself
launches the continuous helper without performing any of them. -/
theorem C7_environment_enforced_by_test_not_start :
    (∀ m : Bool, PythonEbpfProfiler._ebpf_environment m =
      [.assert_init_pid_ns, .set_rlimit_memlock_infinity] ++
        (if m then [] else [.mount_debugfs])) ∧
    (∀ m ok : Bool,
      (PythonEbpfProfiler.test m ok).take
          (PythonEbpfProfiler._ebpf_environment m).length =
        PythonEbpfProfiler._ebpf_environment m ∧
      EbpfEvent.spawn_helper ∉ PythonEbpfProfiler._ebpf_environment m ∧
      EbpfEvent.assert_init_pid_ns ∈ PythonEbpfProfiler.test m ok ∧
      EbpfEvent.set_rlimit_memlock_infinity ∈ PythonEbpfProfiler.test m ok ∧
      (m = false → EbpfEvent.mount_debugfs ∈ PythonEbpfProfiler.test m ok) ∧
      EbpfEvent.spawn_helper ∈ PythonEbpfProfiler.test m ok) ∧
    (∀ ok : Bool,
      EbpfEvent.assert_init_pid_ns ∉ PythonEbpfProfiler.start ok ∧
      EbpfEvent.set_rlimit_memlock_infinity ∉ PythonEbpfProfiler.start ok ∧
      EbpfEvent.mount_debugfs ∉ PythonEbpfProfiler.start ok) := by
  refine ⟨?_, ?_, ?_⟩ <;> decide

/-- Witness for C7's amended theorem, at a host without debugfs mounted and a
successful trial run. -/
theorem C7_environment_witness :
    EbpfEvent.mount_debugfs ∈ PythonEbpfProfiler.test false true ∧
    EbpfEvent.assert_init_pid_ns ∈ PythonEbpfProfiler.test false true := by
  have h := C7_environment_enforced_by_test_not_start.2.1 false true
  exact ⟨h.2.2.2.2.1 rfl, h.2.2.1⟩

/-- C8: `read_external_metadata`, given a path to a file whose mtime is more
than 300 s older than now, raises `ExternalMetadataStaleError` after stat-ing
the file but without reading its contents; when the mtime is within 300 s, or
when no path is given, that error is never raised. -/
theorem C8_staleness_error_iff_mtime_older_than_5_minutes :
    (∀ (file : ExternalMetadataFile) (now : Int),
      now - file.st_mtime > 300 →
      (read_external_metadata (some file) now).1 = .error .mk ∧
      (read_external_metadata (some file) now).2 = [.stat_called] ∧
      ReadStep.read_text_called ∉ (read_external_metadata (some file) now).2) ∧
    (∀ (file : ExternalMetadataFile) (now : Int),
      now - file.st_mtime ≤ 300 →
      ∀ e, (read_external_metadata (some file) now).1 ≠ .error e) ∧
    (∀ (now : Int) (e : ExternalMetadataStaleError),
      (read_external_metadata none now).1 ≠ .error e) := by
  refine ⟨?_, ?_, ?_⟩
  · intro file now h
    have h' : now - file.st_mtime > ((EXTERNAL_METADATA_STALENESS_THRESHOLD_S : Nat) : Int) := by
      simpa [EXTERNAL_METADATA_STALENESS_THRESHOLD_S] using h
    simp [read_external_metadata, h']
  · intro file now h e
    have h' : ¬ now - file.st_mtime > ((EXTERNAL_METADATA_STALENESS_THRESHOLD_S : Nat) : Int) := by
      simp only [EXTERNAL_METADATA_STALENESS_THRESHOLD_S]
      omega
    simp only [read_external_metadata, h', if_false]
    cases file.parsed <;> simp
  · intro now e
    simp [read_external_metadata]

/-- Witness for C8's theorem: a file with mtime 0 read at time 301 raises the
staleness error without reading the contents; read at time 300 it does not
raise; and with no path the error is never raised. -/
theorem C8_staleness_witness :
    (read_external_metadata (some ⟨0, none⟩) 301).1 = .error .mk ∧
    ReadStep.read_text_called ∉ (read_external_metadata (some ⟨0, none⟩) 301).2 ∧
    (read_external_metadata (some ⟨0, none⟩) 300).1 ≠ .error .mk ∧
    (read_external_metadata none 300).1 ≠ .error .mk := by
  have h := C8_staleness_error_iff_mtime_older_than_5_minutes
  exact ⟨(h.1 ⟨0, none⟩ 301 (by decide)).1, (h.1 ⟨0, none⟩ 301 (by decide)).2.2,
    h.2.1 ⟨0, none⟩ 300 (by decide) .mk, h.2.2 300 .mk⟩

/-- C9: `submit_spark_metrics` POSTs to `<host>/api/<version>/spark_metrics`
with body gzip(JSON `{format_version, timestamp, metrics}`), a bearer token in
`Authorization`, the `X-Gprofiler-Service` header, the `Content-type:
application/json` header, and query parameters key, service, hostname,
timestamp and version - but the gzip header the code sets is
`Transfer-Encoding: gzip`; no `Content-Encoding` header appears in the
request, although the claim (and the `_send_request` curlify branch's own
assertion `resp.request.headers["Content-Encoding"] == "gzip"`) requires
`Content-Encoding: gzip`. -/
theorem C9_post_request_has_transfer_encoding_not_content_encoding :
    ∀ (host key service hostname ts_iso version_str : String) (timestamp : Int)
      (metrics : List JsonValue),
      (SparkAPIClient.submit_spark_metrics host key service hostname ts_iso version_str
          timestamp metrics none).method = "POST" ∧
      (SparkAPIClient.submit_spark_metrics host key service hostname ts_iso version_str
          timestamp metrics none).url =
        SparkAPIClient.rstrip_slash host ++ "/" ++ "api" ++ "/" ++ "v0" ++ "/" ++
          "spark_metrics" ∧
      (SparkAPIClient.submit_spark_metrics host key service hostname ts_iso version_str
          timestamp metrics none).gzipped_json_body =
        some (.obj [("format_version", .str "0"), ("timestamp", .num timestamp),
          ("metrics", .arr metrics)]) ∧
      ("Authorization", "Bearer " ++ key) ∈
        (SparkAPIClient.submit_spark_metrics host key service hostname ts_iso version_str
          timestamp metrics none).headers ∧
      ("X-Gprofiler-Service", service) ∈
        (SparkAPIClient.submit_spark_metrics host key service hostname ts_iso version_str
          timestamp metrics none).headers ∧
      ("Content-type", "application/json") ∈
        (SparkAPIClient.submit_spark_metrics host key service hostname ts_iso version_str
          timestamp metrics none).headers ∧
      ("Transfer-Encoding", "gzip") ∈
        (SparkAPIClient.submit_spark_metrics host key service hostname ts_iso version_str
          timestamp metrics none).headers ∧
      (∀ v : String, ("Content-Encoding", v) ∉
        (SparkAPIClient.submit_spark_metrics host key service hostname ts_iso version_str
          timestamp metrics none).headers) ∧
      (SparkAPIClient.submit_spark_metrics host key service hostname ts_iso version_str
          timestamp metrics none).params =
        [("key", key), ("service", service), ("hostname", hostname),
         ("timestamp", ts_iso), ("version", version_str)] := by
  intro host key service hostname ts_iso version_str timestamp metrics
  refine ⟨rfl, rfl, rfl, ?_, ?_, ?_, ?_, ?_, rfl⟩
  · simp [SparkAPIClient.submit_spark_metrics, SparkAPIClient._send_request,
      SparkAPIClient._init_session_headers]
  · simp [SparkAPIClient.submit_spark_metrics, SparkAPIClient._send_request,
      SparkAPIClient._init_session_headers]
  · simp [SparkAPIClient.submit_spark_metrics, SparkAPIClient._send_request,
      SparkAPIClient._init_session_headers]
  · simp [SparkAPIClient.submit_spark_metrics, SparkAPIClient._send_request,
      SparkAPIClient._init_session_headers]
  · intro v
    simp [SparkAPIClient.submit_spark_metrics, SparkAPIClient._send_request,
      SparkAPIClient._init_session_headers]

/-- Witness for C9's theorem at concrete arguments: the request carries
`Transfer-Encoding: gzip` and no `Content-Encoding` header. -/
theorem C9_post_request_witness :
    ("Transfer-Encoding", "gzip") ∈
      (SparkAPIClient.submit_spark_metrics "https://h/" "k" "svc" "host" "ts" "1.0"
        5 [] none).headers ∧
    ("Content-Encoding", "gzip") ∉
      (SparkAPIClient.submit_spark_metrics "https://h/" "k" "svc" "host" "ts" "1.0"
        5 [] none).headers := by
  have h := C9_post_request_has_transfer_encoding_not_content_encoding
    "https://h/" "k" "svc" "host" "ts" "1.0" 5 []
  exact ⟨h.2.2.2.2.2.2.1, h.2.2.2.2.2.2.2.1 "gzip"⟩

/-- C10: the claim - that every name the perf supervisor module imports from
gprofiler.utils, in particular `cleanup_process_reference`, is defined there,
so that `PerfProcess.stop()` runs without ImportError or NameError - fails:
`cleanup_process_reference` is imported by perf_process.py but bound nowhere
in gprofiler/utils/__init__.py (it is exactly the one import without a
definition), so `import gprofiler.utils.perf_process` raises ImportError. -/
theorem C10_cleanup_process_reference_is_not_defined :
    "cleanup_process_reference" ∈ perf_process_utils_imports ∧
    "cleanup_process_reference" ∉ gprofiler_utils_defined_names ∧
    perf_process_utils_imports.filter
        (fun n => ¬ n ∈ gprofiler_utils_defined_names) =
      ["cleanup_process_reference"] := by
  refine ⟨by decide, by decide, by decide⟩

end GProfilerSpec
